import Mathlib

/-!
Shallow embedding of the economy/state engine and command dispatcher of the
InstagramBot repository (`src/utils/userManager.js`,
`src/handlers/commandHandler.js`, and the economy command modules
`src/modules/commands/bank.js`, `src/modules/commands/send.js`, and the
`daily` command module).

Modelling conventions:
- JavaScript numbers holding coin amounts are modelled as `Int` (the engine
  never validates them, so negative values can flow in; `NaN` is not
  representable and is handled at the command layer, which we model with
  `Option Int` for `parseInt` results).
- Timestamps (`Date.now()`, ISO strings) are modelled as `Nat` milliseconds
  since the epoch.
- The ledger (`economy.json`'s `users` object) is an association list from
  lower-cased usernames to economy records.
- JS `username.toLowerCase()` is modelled by `lowerS` (ASCII lowering,
  which agrees with JS on the ASCII usernames the bot handles).
- Each JS function returning `{success, message, ...}` objects is modelled
  with an inductive result type whose constructors correspond one-to-one to
  the function's return sites, carrying the data interpolated into the
  message or returned alongside it.
-/

namespace InstagramBot

/-- ASCII lowering of one character, as JS `toLowerCase` acts on the
ASCII range. -/
def lowerChar (c : Char) : Char :=
  if c.toNat ≥ 65 ∧ c.toNat ≤ 90 then Char.ofNat (c.toNat + 32) else c

/-- JS `username.toLowerCase()`. -/
def lowerS (s : String) : String := ⟨s.data.map lowerChar⟩

/-- One entry of `economy.users[u].transactions`
(`{type, amount, description, timestamp}`). -/
structure Transaction where
  ttype : String
  amount : Int
  description : String
  timestamp : Nat
  deriving Repr, DecidableEq

/-- One record of `economy.users` in `src/utils/userManager.js`. -/
structure EconomyRecord where
  balance : Int
  bank : Int
  loan : Int
  loanDue : Option Nat
  lastDaily : Option Nat
  dailyStreak : Nat
  transactions : List Transaction
  deriving Repr, DecidableEq

/-- The fresh record created by `initializeUserEconomy`
(userManager.js lines 186-196): starting balance 1000. -/
def defaultEconomy : EconomyRecord :=
  { balance := 1000
    bank := 0
    loan := 0
    loanDue := none
    lastDaily := none
    dailyStreak := 0
    transactions := [] }

/-- The `users` object of `economy.json`: lower-cased username keys. -/
abbrev Ledger : Type := List (String × EconomyRecord)

/-- Key lookup in the ledger (JS property access `economy.users[u]`). -/
def lget : Ledger → String → Option EconomyRecord
  | [], _ => none
  | (k, v) :: t, u => if k = u then some v else lget t u

/-- Key assignment in the ledger (JS `economy.users[u] = r`). -/
def lset : Ledger → String → EconomyRecord → Ledger
  | [], u, r => [(u, r)]
  | (k, v) :: t, u, r => if k = u then (u, r) :: t else (k, v) :: lset t u r

@[simp] theorem lget_nil (u : String) : lget [] u = none := rfl

@[simp] theorem lget_lset_self (l : Ledger) (u : String) (r : EconomyRecord) :
    lget (lset l u r) u = some r := by
  induction l with
  | nil => simp [lget, lset]
  | cons h t ih =>
    obtain ⟨k, v⟩ := h
    by_cases hk : k = u <;> simp [lget, lset, hk, ih]

theorem lget_lset_ne (l : Ledger) (u v : String) (r : EconomyRecord)
    (h : u ≠ v) : lget (lset l u r) v = lget l v := by
  induction l with
  | nil => simp [lget, lset, h]
  | cons hd t ih =>
    obtain ⟨k, w⟩ := hd
    by_cases hk : k = u
    · subst hk
      simp [lget, lset, h, Ne.symm h]
    · simp only [lset, if_neg hk]
      by_cases hv : k = v <;> simp [lget, hv, ih]

/-- `getUserEconomy` (userManager.js lines 212-223): normalizes the
username, returns the stored record, or initializes a fresh one via
`initializeUserEconomy` (which also stores it) when absent.  Returns the
record together with the possibly extended ledger. -/
def getUserEconomy (l : Ledger) (username : String) :
    EconomyRecord × Ledger :=
  let u := lowerS username
  match lget l u with
  | some r => (r, l)
  | none => (defaultEconomy, lset l u defaultEconomy)

/-- The wallet balance the engine reports for a username: the stored
record's balance, or the starting balance for a not-yet-seen user (which
`getUserEconomy` would create on first access). -/
def walletOf (l : Ledger) (username : String) : Int :=
  ((lget l (lowerS username)).getD defaultEconomy).balance

/-- Result type of `sendMoney`, one constructor per return site
(userManager.js lines 629-634 and 676-679). -/
inductive SendMoneyResult
  | notEnoughCoins (balance : Int)
  | sent
  deriving Repr, DecidableEq

/-- `sendMoney` (userManager.js lines 620-680).  Normalizes both
usernames, fails when the sender's wallet cannot cover the amount,
otherwise debits the sender, credits the receiver and appends a `send`
record to the sender and a `receive` record to the receiver.

The source lowercases both names up front and `getUserEconomy` lowercases
its argument again (idempotently); we pass the original names to
`getUserEconomy`, which performs the same normalization.

When the normalized usernames coincide, `getUserEconomy` hands back the
same cached object for both sides, so in the source the two balance
mutations hit one field (`-amount` then `+amount`) and both transaction
records are pushed onto one array; the equal-key branch below reproduces
that aliasing. -/
def sendMoney (l : Ledger) (senderUsername receiverUsername : String)
    (amount : Int) (now : Nat) : SendMoneyResult × Ledger :=
  let s := lowerS senderUsername
  let r := lowerS receiverUsername
  let (senderEconomy, l1) := getUserEconomy l senderUsername
  if senderEconomy.balance < amount then
    (.notEnoughCoins senderEconomy.balance, l1)
  else
    let (receiverEconomy, l2) := getUserEconomy l1 receiverUsername
    let sendTx : Transaction :=
      { ttype := "send", amount := amount
        description := "Sent to @" ++ r, timestamp := now }
    let receiveTx : Transaction :=
      { ttype := "receive", amount := amount
        description := "Received from @" ++ s, timestamp := now }
    if s = r then
      -- sender and receiver alias one record object
      let rec' : EconomyRecord :=
        { senderEconomy with
            balance := senderEconomy.balance - amount + amount
            transactions := senderEconomy.transactions ++ [sendTx, receiveTx] }
      (.sent, lset l2 s rec')
    else
      let sRec : EconomyRecord :=
        { senderEconomy with
            balance := senderEconomy.balance - amount
            transactions := senderEconomy.transactions ++ [sendTx] }
      let rRec : EconomyRecord :=
        { receiverEconomy with
            balance := receiverEconomy.balance + amount
            transactions := receiverEconomy.transactions ++ [receiveTx] }
      (.sent, lset (lset l2 s sRec) r rRec)

/-- C1: for every `sendMoney(a, b, amt)` with distinct normalized
usernames, `amt > 0` and sender wallet balance at least `amt`, the
transfer succeeds and the sum of the two wallet balances is unchanged. -/
theorem sendMoney_conserves_wallets (l : Ledger) (a b : String)
    (amount : Int) (now : Nat)
    (hne : lowerS a ≠ lowerS b) (hpos : 0 < amount)
    (hbal : amount ≤ walletOf l a) :
    (sendMoney l a b amount now).1 = SendMoneyResult.sent ∧
      walletOf (sendMoney l a b amount now).2 a +
        walletOf (sendMoney l a b amount now).2 b =
      walletOf l a + walletOf l b := by
  have hne' : lowerS b ≠ lowerS a := Ne.symm hne
  rcases h1 : lget l (lowerS a) with _ | sRec <;>
    rcases h2 : lget l (lowerS b) with _ | rRec <;>
    simp only [walletOf, h1, h2, Option.getD_none, Option.getD_some,
      defaultEconomy] at hbal ⊢ <;>
    simp only [sendMoney, getUserEconomy, h1, h2, lget_lset_ne _ _ _ _ hne,
      lget_lset_ne _ _ _ _ hne', lget_lset_self, if_neg (not_lt.mpr hbal),
      if_neg hne, Option.getD_some, defaultEconomy] <;>
    constructor <;> first | rfl | ring

/-- Witness for C1 at a concrete input: `alice` sends 100 coins to `bob`
starting from an empty ledger (both records get created with the starting
balance 1000). -/
theorem sendMoney_conserves_wallets_witness :
    (lowerS "alice" ≠ lowerS "bob" ∧
      (0 : Int) < 100 ∧ (100 : Int) ≤ walletOf ([] : Ledger) "alice") ∧
    ((sendMoney ([] : Ledger) "alice" "bob" 100 0).1 = SendMoneyResult.sent ∧
      walletOf (sendMoney ([] : Ledger) "alice" "bob" 100 0).2 "alice" +
        walletOf (sendMoney ([] : Ledger) "alice" "bob" 100 0).2 "bob" =
      walletOf ([] : Ledger) "alice" + walletOf ([] : Ledger) "bob") :=
  ⟨⟨by decide, by decide, by decide⟩,
    sendMoney_conserves_wallets ([] : Ledger) "alice" "bob" 100 0
      (by decide) (by decide) (by decide)⟩

/-- JS `params[0].replace(/^@/, '')`: removes one leading `@`. -/
def stripAt (s : String) : String :=
  match s.data with
  | '@' :: rest => ⟨rest⟩
  | _ => s

/-- Result type of `send.execute` (send.js), one constructor per return
site; `transferFailed` wraps the engine's failure balance. -/
inductive SendCmdResult
  | invalidAmount
  | selfSend
  | notEnough (balance : Int)
  | transferred
  | transferFailed (balance : Int)
  deriving Repr, DecidableEq

/-- `send.execute` (send.js lines 24-84) after parameter extraction:
`recipientRaw` is `params[0]`, `amount` is the result of
`parseInt(params[1])` (`none` models `NaN`).  Strips a leading `@`,
rejects non-positive amounts, rejects sending to oneself
(case-insensitive), checks the sender balance, then calls the engine's
`sendMoney`. -/
def sendExecute (l : Ledger) (user recipientRaw : String)
    (amount : Option Int) (now : Nat) : SendCmdResult × Ledger :=
  let recipient := stripAt recipientRaw
  match amount with
  | none => (.invalidAmount, l)
  | some amt =>
    if amt ≤ 0 then (.invalidAmount, l)
    else if lowerS recipient = lowerS user then (.selfSend, l)
    else
      let (senderEconomy, l1) := getUserEconomy l user
      if senderEconomy.balance < amt then (.notEnough senderEconomy.balance, l1)
      else
        match sendMoney l1 user recipient amt now with
        | (.sent, l2) => (.transferred, l2)
        | (.notEnoughCoins b, l2) => (.transferFailed b, l2)

/-- C3 counterexample: the engine-level `sendMoney` does not reject a
self-transfer.  With `alice` holding the starting balance, transferring
100 coins from `alice` to `ALICE` (equal after normalization) returns
success and appends two transaction records to her single record (the
balance is unchanged only because the debit and credit hit the same
aliased object). -/
theorem sendMoney_self_no_failure_counterexample :
    lowerS "alice" = lowerS "ALICE" ∧
    (sendMoney [(("alice" : String), defaultEconomy)] "alice" "ALICE" 100 0).1
      = SendMoneyResult.sent ∧
    (lget (sendMoney [(("alice" : String), defaultEconomy)] "alice" "ALICE" 100 0).2
        "alice").map (fun r => (r.balance, r.transactions.length))
      = some (1000, 2) := by
  decide

/-- C3 amended: the case-insensitive self-transfer guard lives in the
`send` command layer, which fails without touching the ledger; the
engine-level `sendMoney` itself performs no such check — on a
self-transfer with sufficient balance it succeeds, leaves the wallet
balance unchanged, and appends both a `send` and a `receive` transaction
to the one shared record. -/
theorem selfTransfer_guarded_in_command_layer (l : Ledger)
    (user raw sender receiver : String) (amt : Int) (now : Nat)
    (rec : EconomyRecord)
    (hstrip : lowerS (stripAt raw) = lowerS user)
    (heq : lowerS sender = lowerS receiver) (hpos : 0 < amt)
    (hrec : lget l (lowerS sender) = some rec)
    (hbal : amt ≤ rec.balance) :
    sendExecute l user raw (some amt) now = (SendCmdResult.selfSend, l) ∧
    (sendMoney l sender receiver amt now).1 = SendMoneyResult.sent ∧
    lget (sendMoney l sender receiver amt now).2 (lowerS sender) =
      some { rec with
        transactions := rec.transactions ++
          [{ ttype := "send", amount := amt
             description := "Sent to @" ++ lowerS receiver
             timestamp := now },
           { ttype := "receive", amount := amt
             description := "Received from @" ++ lowerS sender
             timestamp := now }] } := by
  refine ⟨?_, ?_⟩
  · simp only [sendExecute, hstrip, if_neg (not_le.mpr hpos),
      eq_self_iff_true, if_true]
  · have hrecr : lget l (lowerS receiver) = some rec := by
      rw [← heq]; exact hrec
    have hb : rec.balance - amt + amt = rec.balance := by ring
    simp only [sendMoney, getUserEconomy, hrec, hrecr, heq,
      if_neg (not_lt.mpr hbal), eq_self_iff_true, if_true, lget_lset_self,
      hb]
    exact ⟨trivial, trivial⟩

/-- Witness for the amended C3 at a concrete input: `alice` (referred to
as `@Alice` in the command and `ALICE` at the engine) with the starting
balance and a 100-coin self-transfer. -/
theorem selfTransfer_guarded_in_command_layer_witness :
    (lowerS (stripAt "@Alice") = lowerS "alice" ∧
      lowerS "alice" = lowerS "ALICE" ∧ (0 : Int) < 100 ∧
      lget [(("alice" : String), defaultEconomy)] (lowerS "alice")
        = some defaultEconomy ∧
      (100 : Int) ≤ defaultEconomy.balance) ∧
    (sendExecute [(("alice" : String), defaultEconomy)] "alice" "@Alice"
        (some 100) 0
      = (SendCmdResult.selfSend, [(("alice" : String), defaultEconomy)]) ∧
    (sendMoney [(("alice" : String), defaultEconomy)] "alice" "ALICE" 100 0).1
      = SendMoneyResult.sent ∧
    lget (sendMoney [(("alice" : String), defaultEconomy)] "alice" "ALICE"
        100 0).2 (lowerS "alice") =
      some { defaultEconomy with
        transactions := defaultEconomy.transactions ++
          [{ ttype := "send", amount := 100
             description := "Sent to @" ++ lowerS "ALICE"
             timestamp := 0 },
           { ttype := "receive", amount := 100
             description := "Received from @" ++ lowerS "alice"
             timestamp := 0 }] }) :=
  ⟨⟨by decide, by decide, by decide, by decide, by decide⟩,
    selfTransfer_guarded_in_command_layer
      [(("alice" : String), defaultEconomy)] "alice" "@Alice" "alice" "ALICE"
      100 0 defaultEconomy (by decide) (by decide) (by decide) (by decide)
      (by decide)⟩

/-! ### Bank operations (deposit, withdraw, loan, repayment) -/

/-- `LOAN_SETTINGS.maxLoanAmount` (userManager.js line 21). -/
def maxLoanAmount : Int := 5000

/-- `LOAN_SETTINGS.loanDuration`: 7 days in milliseconds
(userManager.js line 23). -/
def loanDuration : Nat := 7 * 24 * 60 * 60 * 1000

/-- Result type of `bankDeposit`, one constructor per return site
(userManager.js lines 391-396 and 419-424). -/
inductive BankDepositResult
  | notEnoughCoins (balance : Int)
  | deposited (walletBalance bankBalance : Int)
  deriving Repr, DecidableEq

/-- `bankDeposit` (userManager.js lines 384-425): fails when the wallet
balance is below the amount, otherwise moves the amount from wallet to
bank and appends a `deposit` transaction.  Note there is no validation of
the amount itself. -/
def bankDeposit (l : Ledger) (username : String) (amount : Int)
    (now : Nat) : BankDepositResult × Ledger :=
  let u := lowerS username
  let (economy, l1) := getUserEconomy l username
  if economy.balance < amount then
    (.notEnoughCoins economy.balance, l1)
  else
    let econ' : EconomyRecord :=
      { economy with
          balance := economy.balance - amount
          bank := economy.bank + amount
          transactions := economy.transactions ++
            [{ ttype := "deposit", amount := amount
               description := "Bank deposit", timestamp := now }] }
    (.deposited econ'.balance econ'.bank, lset l1 u econ')

/-- Result type of `bank.handleDeposit` (bank.js lines 103-139), one
constructor per return site (the missing-parameter branch is covered by
passing `none`). -/
inductive DepositCmdResult
  | invalidAmount
  | deposited (walletBalance bankBalance : Int)
  | failed (balance : Int)
  deriving Repr, DecidableEq

/-- `bank.handleDeposit` (bank.js lines 103-139) after parameter
extraction: `amount` is the result of `parseInt(params[1])` (`none`
models `NaN`).  Rejects `NaN` and non-positive amounts before calling
the engine's `bankDeposit`. -/
def handleDeposit (l : Ledger) (user : String) (amount : Option Int)
    (now : Nat) : DepositCmdResult × Ledger :=
  match amount with
  | none => (.invalidAmount, l)
  | some amt =>
    if amt ≤ 0 then (.invalidAmount, l)
    else
      match bankDeposit l user amt now with
      | (.deposited w b, l1) => (.deposited w b, l1)
      | (.notEnoughCoins bal, l1) => (.failed bal, l1)

/-- C5 counterexample: the Economy Engine itself does not validate
amounts.  `bankDeposit` with the negative amount `-5` on a fresh record
does not fail with any invalid-amount error: it succeeds, increases the
wallet to 1005, drives the bank negative, and appends a transaction. -/
theorem bankDeposit_negative_amount_counterexample :
    (-5 : Int) ≤ 0 ∧
    (bankDeposit [(("bob" : String), defaultEconomy)] "bob" (-5) 0).1
      = BankDepositResult.deposited 1005 (-5) ∧
    lget (bankDeposit [(("bob" : String), defaultEconomy)] "bob" (-5) 0).2
        "bob"
      = some { defaultEconomy with
          balance := 1005
          bank := -5
          transactions := [{ ttype := "deposit", amount := -5
                             description := "Bank deposit", timestamp := 0 }] } := by
  decide

/-- C5 amended: non-positive or `NaN` monetary input is rejected before
any mutation by the economy *command layer* (`bank.handleDeposit`,
`send.execute`), not by the engine functions themselves, which perform
no amount validation. -/
theorem amount_validated_in_command_layer (l : Ledger)
    (user raw : String) (amount : Option Int) (now : Nat)
    (hbad : amount = none ∨ ∃ a, amount = some a ∧ a ≤ 0) :
    handleDeposit l user amount now = (DepositCmdResult.invalidAmount, l) ∧
    sendExecute l user raw amount now = (SendCmdResult.invalidAmount, l) := by
  rcases hbad with h | ⟨a, ha, hle⟩
  · subst h
    exact ⟨rfl, rfl⟩
  · subst ha
    constructor
    · simp only [handleDeposit, if_pos hle]
    · simp only [sendExecute, if_pos hle]

/-- Witness for the amended C5 at a concrete input: amount `-5`. -/
theorem amount_validated_in_command_layer_witness :
    ((some (-5 : Int)) = none ∨
      ∃ a, (some (-5 : Int)) = some a ∧ a ≤ 0) ∧
    (handleDeposit ([] : Ledger) "bob" (some (-5)) 0
      = (DepositCmdResult.invalidAmount, ([] : Ledger)) ∧
    sendExecute ([] : Ledger) "bob" "alice" (some (-5)) 0
      = (SendCmdResult.invalidAmount, ([] : Ledger))) :=
  ⟨Or.inr ⟨-5, rfl, by decide⟩,
    amount_validated_in_command_layer ([] : Ledger) "bob" "alice"
      (some (-5)) 0 (Or.inr ⟨-5, rfl, by decide⟩)⟩

/-- Result type of `bankLoan`, one constructor per return site
(userManager.js lines 489-502 and 529-535). -/
inductive BankLoanResult
  | alreadyHasLoan (loan : Int)
  | exceedsMax (maxAmount : Int)
  | approved (walletBalance loanAmount : Int) (dueDate : Nat)
  deriving Repr, DecidableEq

/-- `bankLoan` (userManager.js lines 482-536): fails when a loan is
outstanding or the amount exceeds the configured maximum; otherwise sets
the loan, its due date (`now + loanDuration`), credits the wallet and
appends a `loan` transaction.  The due-date portion of the transaction
description string is elided. -/
def bankLoan (l : Ledger) (username : String) (amount : Int)
    (now : Nat) : BankLoanResult × Ledger :=
  let u := lowerS username
  let (economy, l1) := getUserEconomy l username
  if economy.loan > 0 then
    (.alreadyHasLoan economy.loan, l1)
  else if amount > maxLoanAmount then
    (.exceedsMax maxLoanAmount, l1)
  else
    let dueDate := now + loanDuration
    let econ' : EconomyRecord :=
      { economy with
          loan := amount
          loanDue := some dueDate
          balance := economy.balance + amount
          transactions := economy.transactions ++
            [{ ttype := "loan", amount := amount
               description := "Bank loan", timestamp := now }] }
    (.approved econ'.balance amount dueDate, lset l1 u econ')

/-- C6: at most one outstanding loan.  With an outstanding loan,
`bankLoan` fails with the already-has-loan error and returns the ledger
untouched; with no loan and an amount within the maximum it sets the
loan, its due timestamp `now + loanDuration`, and credits the wallet by
exactly the amount. -/
theorem bankLoan_single_outstanding (l : Ledger) (u : String)
    (rec : EconomyRecord) (amount : Int) (now : Nat)
    (hrec : lget l (lowerS u) = some rec) :
    (0 < rec.loan →
      bankLoan l u amount now = (BankLoanResult.alreadyHasLoan rec.loan, l)) ∧
    (rec.loan = 0 → amount ≤ maxLoanAmount →
      bankLoan l u amount now =
        (BankLoanResult.approved (rec.balance + amount) amount
            (now + loanDuration),
          lset l (lowerS u)
            { rec with
                loan := amount
                loanDue := some (now + loanDuration)
                balance := rec.balance + amount
                transactions := rec.transactions ++
                  [{ ttype := "loan", amount := amount
                     description := "Bank loan", timestamp := now }] })) := by
  constructor
  · intro hloan
    simp only [bankLoan, getUserEconomy, hrec, if_pos hloan]
  · intro hloan hmax
    simp only [bankLoan, getUserEconomy, hrec, hloan, lt_irrefl, if_false,
      if_neg (not_lt.mpr hmax), gt_iff_lt]

/-- Witness for C6 at a concrete input: `bob` with a fresh record (no
loan) borrows 200 at time 0. -/
theorem bankLoan_single_outstanding_witness :
    lget [(("bob" : String), defaultEconomy)] (lowerS "bob")
      = some defaultEconomy ∧
    ((0 < defaultEconomy.loan →
      bankLoan [(("bob" : String), defaultEconomy)] "bob" 200 0
        = (BankLoanResult.alreadyHasLoan defaultEconomy.loan,
           [(("bob" : String), defaultEconomy)])) ∧
    (defaultEconomy.loan = 0 → (200 : Int) ≤ maxLoanAmount →
      bankLoan [(("bob" : String), defaultEconomy)] "bob" 200 0 =
        (BankLoanResult.approved (defaultEconomy.balance + 200) 200
            (0 + loanDuration),
          lset [(("bob" : String), defaultEconomy)] (lowerS "bob")
            { defaultEconomy with
                loan := 200
                loanDue := some (0 + loanDuration)
                balance := defaultEconomy.balance + 200
                transactions := defaultEconomy.transactions ++
                  [{ ttype := "loan", amount := 200
                     description := "Bank loan", timestamp := 0 }] }))) :=
  ⟨by decide,
    bankLoan_single_outstanding [(("bob" : String), defaultEconomy)] "bob"
      defaultEconomy 200 0 (by decide)⟩

/-- Result type of `repayLoan`, one constructor per return site
(userManager.js lines 551-564 and 605-610). -/
inductive RepayLoanResult
  | noOutstandingLoan
  | notEnoughCoins (balance : Int)
  | repaid (walletBalance remainingLoan : Int)
  deriving Repr, DecidableEq

/-- `repayLoan` (userManager.js lines 544-611): fails when no loan is
outstanding; fails when the wallet balance is below the *requested*
amount (this check happens before the cap); then caps the amount to the
outstanding loan, decreases loan and wallet by the capped amount, clears
the due date when the loan is fully repaid, and appends a `repayment`
transaction. -/
def repayLoan (l : Ledger) (username : String) (amount : Int)
    (now : Nat) : RepayLoanResult × Ledger :=
  let u := lowerS username
  let (economy, l1) := getUserEconomy l username
  if economy.loan ≤ 0 then
    (.noOutstandingLoan, l1)
  else if economy.balance < amount then
    (.notEnoughCoins economy.balance, l1)
  else
    let amount := if amount > economy.loan then economy.loan else amount
    let newLoan := economy.loan - amount
    let econ' : EconomyRecord :=
      { economy with
          loan := newLoan
          balance := economy.balance - amount
          loanDue := if newLoan ≤ 0 then none else economy.loanDue
          transactions := economy.transactions ++
            [{ ttype := "repayment", amount := amount
               description := "Loan repayment", timestamp := now }] }
    (.repaid econ'.balance econ'.loan, lset l1 u econ')

/-- C4 counterexample: the wallet check uses the requested amount, not
the capped one.  `bob` has loan 100 and wallet 100; `repayLoan(bob,
5000)` would be capped to 100, which his wallet covers, yet the code
fails with the insufficient-funds error. -/
theorem repayLoan_checks_uncapped_amount_counterexample :
    min (5000 : Int) 100 ≤ 100 ∧
    (repayLoan
        [(("bob" : String),
          { defaultEconomy with
            balance := 100
            loan := 100
            loanDue := some 1000 })] "bob" 5000 0).1
      = RepayLoanResult.notEnoughCoins 100 ∧
    (repayLoan
        [(("bob" : String),
          { defaultEconomy with
            balance := 100
            loan := 100
            loanDue := some 1000 })] "bob" 5000 0).2
      = [(("bob" : String),
          { defaultEconomy with
            balance := 100
            loan := 100
            loanDue := some 1000 })] := by
  decide

/-- C4 amended: with an active loan, `repayLoan` first checks the wallet
against the *requested* (uncapped) amount, failing with the
insufficient-funds error whenever `wallet < amount` — even when the
capped amount `min(amount, loan)` would be affordable — and only then
caps the repayment to `min(amount, loan)`; on success loan and wallet
each decrease by the capped amount and the due date is cleared exactly
when the loan reaches 0.  With no active loan it fails with the
no-outstanding-loan error. -/
theorem repayLoan_caps_after_funds_check (l : Ledger) (u : String)
    (rec : EconomyRecord) (amount : Int) (now : Nat)
    (hrec : lget l (lowerS u) = some rec) :
    (rec.loan = 0 →
      repayLoan l u amount now = (RepayLoanResult.noOutstandingLoan, l)) ∧
    (0 < rec.loan → rec.balance < amount →
      repayLoan l u amount now
        = (RepayLoanResult.notEnoughCoins rec.balance, l)) ∧
    (0 < rec.loan → amount ≤ rec.balance →
      repayLoan l u amount now =
        (RepayLoanResult.repaid (rec.balance - min amount rec.loan)
            (rec.loan - min amount rec.loan),
          lset l (lowerS u)
            { rec with
                loan := rec.loan - min amount rec.loan
                balance := rec.balance - min amount rec.loan
                loanDue := if rec.loan - min amount rec.loan ≤ 0 then none
                  else rec.loanDue
                transactions := rec.transactions ++
                  [{ ttype := "repayment", amount := min amount rec.loan
                     description := "Loan repayment", timestamp := now }] })) := by
  have hcap : (if rec.loan < amount then rec.loan else amount)
      = min amount rec.loan := by
    rcases le_or_lt amount rec.loan with h | h
    · rw [if_neg (not_lt.mpr h), min_eq_left h]
    · rw [if_pos h, min_eq_right h.le]
  refine ⟨?_, ?_, ?_⟩
  · intro hloan
    simp only [repayLoan, getUserEconomy, hrec, hloan, le_refl, if_true]
  · intro hloan hbal
    simp only [repayLoan, getUserEconomy, hrec,
      if_neg (not_le.mpr hloan), if_pos hbal]
  · intro hloan hbal
    simp only [repayLoan, getUserEconomy, hrec,
      if_neg (not_le.mpr hloan), if_neg (not_lt.mpr hbal), gt_iff_lt, hcap]

/-- Witness for the amended C4 at a concrete input: `bob` with wallet
150 and loan 100 repays 60 (capped amount is still 60). -/
theorem repayLoan_caps_after_funds_check_witness :
    lget [(("bob" : String),
        { defaultEconomy with
          balance := 150
          loan := 100
          loanDue := some 1000 })] (lowerS "bob")
      = some { defaultEconomy with
               balance := 150
               loan := 100
               loanDue := some 1000 } ∧
    (({ defaultEconomy with
        balance := 150
        loan := 100
        loanDue := some 1000 } : EconomyRecord).loan = 0 →
      repayLoan [(("bob" : String),
          { defaultEconomy with
            balance := 150
            loan := 100
            loanDue := some 1000 })] "bob" 60 0
        = (RepayLoanResult.noOutstandingLoan,
           [(("bob" : String),
             { defaultEconomy with
               balance := 150
               loan := 100
               loanDue := some 1000 })])) ∧
    ((0 : Int) < ({ defaultEconomy with
        balance := 150
        loan := 100
        loanDue := some 1000 } : EconomyRecord).loan →
      ({ defaultEconomy with
        balance := 150
        loan := 100
        loanDue := some 1000 } : EconomyRecord).balance < 60 →
      repayLoan [(("bob" : String),
          { defaultEconomy with
            balance := 150
            loan := 100
            loanDue := some 1000 })] "bob" 60 0
        = (RepayLoanResult.notEnoughCoins 150,
           [(("bob" : String),
             { defaultEconomy with
               balance := 150
               loan := 100
               loanDue := some 1000 })])) ∧
    ((0 : Int) < ({ defaultEconomy with
        balance := 150
        loan := 100
        loanDue := some 1000 } : EconomyRecord).loan →
      (60 : Int) ≤ ({ defaultEconomy with
        balance := 150
        loan := 100
        loanDue := some 1000 } : EconomyRecord).balance →
      repayLoan [(("bob" : String),
          { defaultEconomy with
            balance := 150
            loan := 100
            loanDue := some 1000 })] "bob" 60 0 =
        (RepayLoanResult.repaid (150 - min 60 100) (100 - min 60 100),
          lset [(("bob" : String),
            { defaultEconomy with
              balance := 150
              loan := 100
              loanDue := some 1000 })] (lowerS "bob")
            { { defaultEconomy with
                balance := 150
                loan := 100
                loanDue := some 1000 } with
                loan := 100 - min 60 100
                balance := 150 - min 60 100
                loanDue := if (100 : Int) - min 60 100 ≤ 0 then none
                  else some 1000
                transactions := [] ++
                  [{ ttype := "repayment", amount := min 60 100
                     description := "Loan repayment", timestamp := 0 }] })) :=
  ⟨by decide,
    repayLoan_caps_after_funds_check
      [(("bob" : String),
        { defaultEconomy with
          balance := 150
          loan := 100
          loanDue := some 1000 })] "bob"
      { defaultEconomy with
        balance := 150
        loan := 100
        loanDue := some 1000 } 60 0 (by decide)⟩

/-! ### Daily reward -/

/-- `DAILY_REWARD.amount` (userManager.js line 29). -/
def dailyAmount : Int := 500

/-- `DAILY_REWARD.cooldown`: 24 hours in milliseconds
(userManager.js line 30). -/
def dailyCooldownMs : Nat := 24 * 60 * 60 * 1000

/-- Return value of `canCollectDaily` (userManager.js lines 230-268). -/
structure CanCollectResult where
  canCollect : Bool
  hoursLeft : Nat
  minutesLeft : Nat
  deriving Repr, DecidableEq

/-- `canCollectDaily` (userManager.js lines 230-268): collectable when
never collected or the 24h cooldown has passed; otherwise reports the
floor hours and minutes left.  (JS computes `now - lastDaily` on
numbers; the theorems below hypothesize `lastDaily ≤ now`, matching a
non-regressing clock, so `Nat` subtraction agrees.) -/
def canCollectDaily (l : Ledger) (username : String) (now : Nat) :
    CanCollectResult × Ledger :=
  let (economy, l1) := getUserEconomy l username
  match economy.lastDaily with
  | none => ({ canCollect := true, hoursLeft := 0, minutesLeft := 0 }, l1)
  | some lastDaily =>
    let timeDiff := now - lastDaily
    if timeDiff ≥ dailyCooldownMs then
      ({ canCollect := true, hoursLeft := 0, minutesLeft := 0 }, l1)
    else
      let timeLeft := dailyCooldownMs - timeDiff
      ({ canCollect := false
         hoursLeft := timeLeft / (1000 * 60 * 60)
         minutesLeft := (timeLeft % (1000 * 60 * 60)) / (1000 * 60) }, l1)

/-- `collectDaily` (userManager.js lines 275-324): itself performs no
cooldown gate.  Resets the streak to 0 when the last collection is more
than 48 hours old, then increments it, credits the wallet with the daily
amount, stamps `lastDaily`, and appends a `daily` transaction (the
streak suffix of the description string is elided).  Returns
`(amount, streak)`. -/
def collectDaily (l : Ledger) (username : String) (now : Nat) :
    (Int × Nat) × Ledger :=
  let u := lowerS username
  let (economy, l1) := getUserEconomy l username
  let streak0 :=
    match economy.lastDaily with
    | some t => if now - t > 48 * 60 * 60 * 1000 then 0 else economy.dailyStreak
    | none => economy.dailyStreak
  let streak := streak0 + 1
  let econ' : EconomyRecord :=
    { economy with
        balance := economy.balance + dailyAmount
        lastDaily := some now
        dailyStreak := streak
        transactions := economy.transactions ++
          [{ ttype := "daily", amount := dailyAmount
             description := "Daily reward", timestamp := now }] }
  ((dailyAmount, streak), lset l1 u econ')

/-- Result type of the `daily` command's `execute`, one constructor per
return site. -/
inductive DailyCmdResult
  | onCooldown (hoursLeft minutesLeft : Nat)
  | collected (amount : Int) (streak : Nat)
  deriving Repr, DecidableEq

/-- `daily.execute` (the `daily` command module, lines 28-94): gates on
`canCollectDaily` and then calls `collectDaily`. -/
def dailyExecute (l : Ledger) (user : String) (now : Nat) :
    DailyCmdResult × Ledger :=
  let (check, l1) := canCollectDaily l user now
  if check.canCollect then
    let ((amount, streak), l2) := collectDaily l1 user now
    (.collected amount streak, l2)
  else
    (.onCooldown check.hoursLeft check.minutesLeft, l1)

/-- C7: the daily command fails with the cooldown message (reporting the
hours and minutes remaining) before 24h have elapsed since `lastDaily`;
once they have, it credits the wallet with the 500-coin reward, stamps
`lastDaily := now`, and sets the streak to 1 when the gap exceeds twice
the interval (or on a first-ever collection), else to the previous
streak + 1. -/
theorem daily_cooldown_and_streak (l : Ledger) (u : String)
    (rec : EconomyRecord) (now t : Nat)
    (hrec : lget l (lowerS u) = some rec) :
    (rec.lastDaily = some t → t ≤ now → now - t < dailyCooldownMs →
      dailyExecute l u now =
        (DailyCmdResult.onCooldown
            ((dailyCooldownMs - (now - t)) / (1000 * 60 * 60))
            (((dailyCooldownMs - (now - t)) % (1000 * 60 * 60)) / (1000 * 60)),
          l)) ∧
    (rec.lastDaily = some t → dailyCooldownMs ≤ now - t →
      dailyExecute l u now =
        (DailyCmdResult.collected 500
            (if 2 * dailyCooldownMs < now - t then 1 else rec.dailyStreak + 1),
          lset l (lowerS u)
            { rec with
                balance := rec.balance + 500
                lastDaily := some now
                dailyStreak :=
                  if 2 * dailyCooldownMs < now - t then 1
                  else rec.dailyStreak + 1
                transactions := rec.transactions ++
                  [{ ttype := "daily", amount := 500
                     description := "Daily reward", timestamp := now }] })) ∧
    (rec.lastDaily = none → rec.dailyStreak = 0 →
      dailyExecute l u now =
        (DailyCmdResult.collected 500 1,
          lset l (lowerS u)
            { rec with
                balance := rec.balance + 500
                lastDaily := some now
                dailyStreak := 1
                transactions := rec.transactions ++
                  [{ ttype := "daily", amount := 500
                     description := "Daily reward", timestamp := now }] })) := by
  have h48 : 48 * 60 * 60 * 1000 = 2 * dailyCooldownMs := by
    norm_num [dailyCooldownMs]
  refine ⟨?_, ?_, ?_⟩
  · intro hld hle hlt
    simp only [dailyExecute, canCollectDaily, getUserEconomy, hrec, hld,
      if_neg (not_le.mpr hlt), Bool.false_eq_true, if_false]
  · intro hld hge
    have hstreak :
        (if 2 * dailyCooldownMs < now - t then 0 else rec.dailyStreak) + 1
          = if 2 * dailyCooldownMs < now - t then 1
            else rec.dailyStreak + 1 := by
      split <;> rfl
    simp only [dailyExecute, canCollectDaily, collectDaily, getUserEconomy,
      hrec, hld, if_pos hge, dailyAmount, h48, hstreak, if_true]
  · intro hld hstreak0
    simp only [dailyExecute, canCollectDaily, collectDaily, getUserEconomy,
      hrec, hld, dailyAmount, hstreak0, if_true, Nat.zero_add]

/-- The concrete record used by the C7 witness: last collected at
t = 0 with a 3-day streak. -/
def dailyDemoRec : EconomyRecord :=
  { defaultEconomy with lastDaily := some 0, dailyStreak := 3 }

/-- The concrete ledger used by the C7 witness. -/
def dailyDemoLedger : Ledger := [("bob", dailyDemoRec)]

/-- Witness for C7 at a concrete input: `bob` last collected at t = 0
and comes back 50 hours later (gap > 2 times 24h, so the streak
resets). -/
theorem daily_cooldown_and_streak_witness :
    lget dailyDemoLedger (lowerS "bob") = some dailyDemoRec ∧
    ((dailyDemoRec.lastDaily = some 0 → (0 : Nat) ≤ 180000000 →
      180000000 - 0 < dailyCooldownMs →
      dailyExecute dailyDemoLedger "bob" 180000000 =
        (DailyCmdResult.onCooldown
            ((dailyCooldownMs - (180000000 - 0)) / (1000 * 60 * 60))
            (((dailyCooldownMs - (180000000 - 0)) % (1000 * 60 * 60))
              / (1000 * 60)),
          dailyDemoLedger)) ∧
    (dailyDemoRec.lastDaily = some 0 →
      dailyCooldownMs ≤ 180000000 - 0 →
      dailyExecute dailyDemoLedger "bob" 180000000 =
        (DailyCmdResult.collected 500
            (if 2 * dailyCooldownMs < 180000000 - 0 then 1
             else dailyDemoRec.dailyStreak + 1),
          lset dailyDemoLedger (lowerS "bob")
            { dailyDemoRec with
                balance := dailyDemoRec.balance + 500
                lastDaily := some 180000000
                dailyStreak :=
                  if 2 * dailyCooldownMs < 180000000 - 0 then 1
                  else dailyDemoRec.dailyStreak + 1
                transactions := dailyDemoRec.transactions ++
                  [{ ttype := "daily", amount := 500
                     description := "Daily reward"
                     timestamp := 180000000 }] })) ∧
    (dailyDemoRec.lastDaily = none → dailyDemoRec.dailyStreak = 0 →
      dailyExecute dailyDemoLedger "bob" 180000000 =
        (DailyCmdResult.collected 500 1,
          lset dailyDemoLedger (lowerS "bob")
            { dailyDemoRec with
                balance := dailyDemoRec.balance + 500
                lastDaily := some 180000000
                dailyStreak := 1
                transactions := dailyDemoRec.transactions ++
                  [{ ttype := "daily", amount := 500
                     description := "Daily reward"
                     timestamp := 180000000 }] }))) :=
  ⟨by decide,
    daily_cooldown_and_streak dailyDemoLedger "bob" dailyDemoRec
      180000000 0 (by decide)⟩

/-! ### Balance adjustment and persistence -/

/-- JS return object of `updateBalance` (`{success: true, balance}`,
userManager.js lines 372-375): the function has a single return site and
always reports success. -/
structure UpdateBalanceResult where
  success : Bool
  balance : Int
  deriving Repr, DecidableEq

/-- `updateBalance` (userManager.js lines 333-376): adds the (possibly
negative) amount, floors the balance at 0, appends a `credit`/`debit`
transaction with the absolute amount, and trims the history to the 50
most recent entries (`slice(-50)`). -/
def updateBalance (l : Ledger) (username : String) (amount : Int)
    (descr : String) (now : Nat) : UpdateBalanceResult × Ledger :=
  let u := lowerS username
  let (economy, l1) := getUserEconomy l username
  let ttype := if amount ≥ 0 then "credit" else "debit"
  let bal0 := economy.balance + amount
  let newBal := if bal0 < 0 then 0 else bal0
  let txs := economy.transactions ++
    [{ ttype := ttype, amount := |amount|
       description := descr, timestamp := now }]
  let txs := if txs.length > 50 then txs.drop (txs.length - 50) else txs
  let econ' : EconomyRecord :=
    { economy with balance := newBal, transactions := txs }
  ({ success := true, balance := newBal }, lset l1 u econ')

/-- The combined persistence state: the in-memory cache
(`economyCache`) and the durable file (`economy.json`). -/
structure EconState where
  cache : Ledger
  disk : Ledger
  deriving Repr, DecidableEq

/-- One mutating engine call against the combined state.  Every such
caller in userManager.js mutates record objects that live inside
`economyCache` (so the cache holds the new data before `saveEconomy` is
even called) and then invokes `saveEconomy` (lines 128-137), which
writes the cache to the file and returns false on an I/O error — a
return value every caller discards.  `ioOk` models whether
`fs.writeFileSync` succeeds. -/
def runPersisted {α : Type} (st : EconState) (ioOk : Bool)
    (op : Ledger → α × Ledger) : α × EconState :=
  let (res, newLedger) := op st.cache
  (res, { cache := newLedger, disk := if ioOk then newLedger else st.disk })

/-- C8 counterexample: when the save fails (`ioOk = false`),
`updateBalance` still returns `{success: true}` and the in-memory cache
keeps the mutated record while the disk keeps the old one — no
`PersistenceError`, no rollback. -/
theorem save_failure_no_rollback_counterexample :
    (runPersisted
        { cache := [(("bob" : String), defaultEconomy)]
          disk := [(("bob" : String), defaultEconomy)] } false
        (fun c => updateBalance c "bob" 100 "reward" 0)).1
      = { success := true, balance := 1100 } ∧
    (runPersisted
        { cache := [(("bob" : String), defaultEconomy)]
          disk := [(("bob" : String), defaultEconomy)] } false
        (fun c => updateBalance c "bob" 100 "reward" 0)).2.cache
      ≠ (runPersisted
        { cache := [(("bob" : String), defaultEconomy)]
          disk := [(("bob" : String), defaultEconomy)] } false
        (fun c => updateBalance c "bob" 100 "reward" 0)).2.disk := by
  decide

/-- C8 amended: every mutating engine call computes on the in-memory
cache and then attempts the write-through save; on success the whole
ledger is durable, but on failure the false return of `saveEconomy` is
ignored — the call returns its normal (successful) result, the cache
keeps the unsaved mutation, and the file keeps the previous contents
(no `PersistenceError`, no rollback).  Stated for `updateBalance`. -/
theorem save_failure_ignored (st : EconState) (u : String)
    (amount : Int) (descr : String) (now : Nat) (ioOk : Bool) :
    (runPersisted st ioOk (fun c => updateBalance c u amount descr now)).1
      = (updateBalance st.cache u amount descr now).1 ∧
    (runPersisted st ioOk (fun c => updateBalance c u amount descr now)).2.cache
      = (updateBalance st.cache u amount descr now).2 ∧
    (runPersisted st true (fun c => updateBalance c u amount descr now)).2.disk
      = (updateBalance st.cache u amount descr now).2 ∧
    (runPersisted st false (fun c => updateBalance c u amount descr now)).2.disk
      = st.disk :=
  ⟨rfl, rfl, rfl, rfl⟩

/-- C9 counterexample: only `updateBalance` enforces the 50-entry cap.
`collectDaily` on a record already holding 50 transactions leaves 51 of
them. -/
theorem collectDaily_exceeds_transaction_cap_counterexample :
    ({ defaultEconomy with
        transactions := List.replicate 50
          { ttype := "credit", amount := 1, description := "x"
            timestamp := 0 } } : EconomyRecord).transactions.length = 50 ∧
    ((lget (collectDaily
        [(("bob" : String),
          { defaultEconomy with
              transactions := List.replicate 50
                { ttype := "credit", amount := 1, description := "x"
                  timestamp := 0 } })] "bob" 90000000).2 "bob").getD
      defaultEconomy).transactions.length = 51 := by
  decide

/-- C9 amended: `updateBalance` alone enforces the transaction cap:
after it, the stored history has length `min (old + 1) 50` and is a
suffix of the old history plus the new entry (oldest evicted first);
the other mutating operations append without re-checking the cap. -/
theorem updateBalance_caps_transactions (l : Ledger) (u : String)
    (rec : EconomyRecord) (amount : Int) (descr : String) (now : Nat)
    (hrec : lget l (lowerS u) = some rec) :
    ((lget (updateBalance l u amount descr now).2 (lowerS u)).getD
        defaultEconomy).transactions.length
      = min (rec.transactions.length + 1) 50 ∧
    List.IsSuffix
      ((lget (updateBalance l u amount descr now).2 (lowerS u)).getD
        defaultEconomy).transactions
      (rec.transactions ++
        [{ ttype := if amount ≥ 0 then "credit" else "debit"
           amount := |amount|, description := descr, timestamp := now }]) := by
  simp only [updateBalance, getUserEconomy, hrec, lget_lset_self,
    Option.getD_some]
  set T := rec.transactions ++
    [({ ttype := if amount ≥ 0 then "credit" else "debit"
        amount := |amount|, description := descr
        timestamp := now } : Transaction)] with hT
  have hlen : T.length = rec.transactions.length + 1 := by
    simp [hT]
  by_cases hgt : T.length > 50
  · rw [if_pos hgt]
    constructor
    · rw [List.length_drop]
      omega
    · exact List.drop_suffix _ _
  · rw [if_neg hgt]
    constructor
    · omega
    · exact List.suffix_refl T

/-- Witness for the amended C9 at a concrete input: `bob` with an empty
history gets one `credit` entry. -/
theorem updateBalance_caps_transactions_witness :
    lget [(("bob" : String), defaultEconomy)] (lowerS "bob")
      = some defaultEconomy ∧
    (((lget (updateBalance [(("bob" : String), defaultEconomy)] "bob" 100
          "reward" 0).2 (lowerS "bob")).getD
        defaultEconomy).transactions.length
      = min (defaultEconomy.transactions.length + 1) 50 ∧
    List.IsSuffix
      ((lget (updateBalance [(("bob" : String), defaultEconomy)] "bob" 100
          "reward" 0).2 (lowerS "bob")).getD
        defaultEconomy).transactions
      (defaultEconomy.transactions ++
        [{ ttype := if (100 : Int) ≥ 0 then "credit" else "debit"
           amount := |(100 : Int)|, description := "reward"
           timestamp := 0 }])) :=
  ⟨by decide,
    updateBalance_caps_transactions [(("bob" : String), defaultEconomy)]
      "bob" defaultEconomy 100 "reward" 0 (by decide)⟩

/-! ### Command dispatcher (`src/handlers/commandHandler.js`) -/

/-- Generic key lookup for the dispatcher's string-keyed maps
(`this.commands`, `this.aliases`, `this.cooldowns`,
`this.commandStats`, `users.json`). -/
def aget {α : Type} : List (String × α) → String → Option α
  | [], _ => none
  | (k, v) :: t, u => if k = u then some v else aget t u

/-- Generic key assignment for the dispatcher's string-keyed maps. -/
def aset {α : Type} : List (String × α) → String → α → List (String × α)
  | [], u, r => [(u, r)]
  | (k, v) :: t, u, r => if k = u then (u, r) :: t else (k, v) :: aset t u r

@[simp] theorem aget_aset_self {α : Type} (l : List (String × α))
    (u : String) (r : α) : aget (aset l u r) u = some r := by
  induction l with
  | nil => simp [aget, aset]
  | cons h t ih =>
    obtain ⟨k, v⟩ := h
    by_cases hk : k = u <;> simp [aget, aset, hk, ih]

/-- The fields of a registered command object that the dispatcher reads
(commandHandler.js): `cooldown` is in seconds, with 0 standing for the
JS-falsy "no cooldown" case. -/
structure Command where
  name : String
  adminOnly : Bool
  cooldown : Nat
  deriving Repr, DecidableEq

/-- `getCommand` (commandHandler.js lines 102-115): direct lookup in
`this.commands`, then alias lookup via `this.aliases`. -/
def getCommand (commands : List (String × Command))
    (aliases : List (String × String)) (name : String) : Option Command :=
  match aget commands name with
  | some c => some c
  | none =>
    match aget aliases name with
    | some commandName => aget commands commandName
    | none => none

/-- One record of `users.json` as touched by `getUser` and
`incrementCommandUsage` (userManager.js lines 144-173 and 710-738);
`count`/`lastCommand` model the `commandUsage` object. -/
structure UserRecord where
  createdAt : Nat
  lastSeen : Nat
  count : Nat
  lastCommand : Option Nat
  deriving Repr, DecidableEq

/-- `getUser` (userManager.js lines 144-173): returns the stored record
or creates a fresh one (usage count 0).  The side effects on the economy
store (`initializeUserEconomy`) are not tracked here. -/
def getUser (us : List (String × UserRecord)) (username : String)
    (now : Nat) : UserRecord × List (String × UserRecord) :=
  let u := lowerS username
  match aget us u with
  | some r => (r, us)
  | none =>
    let newUser : UserRecord :=
      { createdAt := now, lastSeen := now, count := 0, lastCommand := none }
    (newUser, aset us u newUser)

/-- `incrementCommandUsage` (userManager.js lines 710-738): bumps the
user's usage count and stamps `lastCommand`/`lastSeen`. -/
def incrementCommandUsage (us : List (String × UserRecord))
    (username : String) (now : Nat) : List (String × UserRecord) :=
  let u := lowerS username
  let (userData, us1) := getUser us username now
  aset us1 u
    { userData with
        count := userData.count + 1
        lastCommand := some now
        lastSeen := now }

/-- `trackCommandUsage` (commandHandler.js lines 242-248): initializes a
missing (or JS-falsy 0) counter to 0 and increments it.  Keyed by the
name the dispatcher was invoked with. -/
def trackCommandUsage (stats : List (String × Nat)) (commandName : String) :
    List (String × Nat) :=
  match aget stats commandName with
  | none => aset stats commandName (0 + 1)
  | some n => aset stats commandName (n + 1)

/-- The per-command analytics counter read back from the stats map. -/
def statCount (stats : List (String × Nat)) (name : String) : Nat :=
  (aget stats name).getD 0

/-- The per-user usage counter read back from the users store. -/
def usageCount (us : List (String × UserRecord)) (user : String) : Nat :=
  ((aget us (lowerS user)).map (fun r => r.count)).getD 0

theorem statCount_trackCommandUsage (stats : List (String × Nat))
    (name : String) :
    statCount (trackCommandUsage stats name) name = statCount stats name + 1 := by
  unfold trackCommandUsage statCount
  rcases h : aget stats name with _ | n <;> simp [h]

theorem usageCount_incrementCommandUsage (us : List (String × UserRecord))
    (user : String) (now : Nat) :
    usageCount (incrementCommandUsage us user now)
      user = usageCount us user + 1 := by
  unfold incrementCommandUsage getUser usageCount
  rcases h : aget us (lowerS user) with _ | r <;> simp [h]

/-- Outcome of the handler invocation `await command.execute(...)`
(commandHandler.js line 159): the handler either returns a result whose
`success` flag we keep, or throws. -/
inductive HandlerOutcome
  | returns (success : Bool)
  | throws
  deriving Repr, DecidableEq

/-- Result of `checkCooldown` (commandHandler.js lines 184-215):
`secondsLeft` is `Math.ceil((cooldownEnd - now) / 1000)`; the
seconds/minutes message formatting is elided. -/
inductive CooldownCheck
  | allowed
  | onCooldown (secondsLeft : Nat)
  deriving Repr, DecidableEq

/-- `checkCooldown` (commandHandler.js lines 184-215): a command without
a cooldown is always allowed; otherwise the `name-user` entry blocks
until its expiry (expired entries are ignored; their timer-based removal
is immaterial to the check). -/
def checkCooldown (cooldowns : List (String × Nat)) (command : Command)
    (user : String) (now : Nat) : CooldownCheck :=
  if command.cooldown = 0 then .allowed
  else
    match aget cooldowns (command.name ++ "-" ++ user) with
    | none => .allowed
    | some cooldownEnd =>
      if now < cooldownEnd then
        .onCooldown ((cooldownEnd - now + 999) / 1000)
      else .allowed

/-- `applyCooldown` (commandHandler.js lines 223-235): records the
expiry `now + cooldown * 1000`; the `setTimeout` that later deletes the
entry is not modelled (the entry is ignored once expired). -/
def applyCooldown (cooldowns : List (String × Nat)) (command : Command)
    (user : String) (now : Nat) : List (String × Nat) :=
  if command.cooldown = 0 then cooldowns
  else aset cooldowns (command.name ++ "-" ++ user)
    (now + command.cooldown * 1000)

/-- The dispatcher's mutable state: the cooldown map, the per-command
stats, and the `users.json` store behind `incrementCommandUsage`. -/
structure DispatchState where
  cooldowns : List (String × Nat)
  commandStats : List (String × Nat)
  users : List (String × UserRecord)
  deriving Repr, DecidableEq

/-- Result of `CommandHandler.execute`, one constructor per return site
(commandHandler.js lines 126-175). -/
inductive ExecResult
  | commandNotFound
  | permissionDenied
  | onCooldown (secondsLeft : Nat)
  | handlerResult (success : Bool)
  | handlerError
  deriving Repr, DecidableEq

/-- `CommandHandler.execute` (commandHandler.js lines 126-175):
resolution → permission check → cooldown check → usage tracking (both
counters) → handler invocation → conditional cooldown commit.  A thrown
handler error is caught after the counters were already bumped; the
cooldown is committed only for a successful result of a command with a
nonzero cooldown. -/
def execute (commands : List (String × Command))
    (aliases : List (String × String)) (st : DispatchState)
    (name user : String) (isAdmin : Bool) (handler : HandlerOutcome)
    (now : Nat) : ExecResult × DispatchState :=
  match getCommand commands aliases name with
  | none => (.commandNotFound, st)
  | some command =>
    if command.adminOnly && !isAdmin then (.permissionDenied, st)
    else
      match checkCooldown st.cooldowns command user now with
      | .onCooldown s => (.onCooldown s, st)
      | .allowed =>
        let st1 : DispatchState :=
          { st with
              commandStats := trackCommandUsage st.commandStats name
              users := incrementCommandUsage st.users user now }
        match handler with
        | .throws => (.handlerError, st1)
        | .returns ok =>
          if ok ∧ command.cooldown ≠ 0 then
            (.handlerResult ok,
              { st1 with
                  cooldowns := applyCooldown st1.cooldowns command user now })
          else (.handlerResult ok, st1)

/-- C2: once the gates pass, the dispatcher commits a `(command, user)`
cooldown entry exactly when the command's cooldown is nonzero and the
handler's result is successful; when the handler returns
`{success: false}` or throws, the cooldown map is unchanged and an
immediately following call of the same command by the same user (with
any handler) is not rejected with the on-cooldown result. -/
theorem cooldown_commit_iff_success (commands : List (String × Command))
    (aliases : List (String × String)) (st : DispatchState)
    (name user : String) (isAdmin : Bool) (handler h2 : HandlerOutcome)
    (now s : Nat) (command : Command)
    (hcmd : getCommand commands aliases name = some command)
    (hperm : (command.adminOnly && !isAdmin) = false)
    (hcool : checkCooldown st.cooldowns command user now
      = CooldownCheck.allowed) :
    ((execute commands aliases st name user isAdmin handler now).2.cooldowns
      = if handler = HandlerOutcome.returns true ∧ command.cooldown ≠ 0
        then aset st.cooldowns (command.name ++ "-" ++ user)
          (now + command.cooldown * 1000)
        else st.cooldowns) ∧
    (handler = HandlerOutcome.returns false ∨ handler = HandlerOutcome.throws →
      (execute commands aliases
          (execute commands aliases st name user isAdmin handler now).2
          name user isAdmin h2 now).1 ≠ ExecResult.onCooldown s) := by
  have hmain :
      (execute commands aliases st name user isAdmin handler now).2.cooldowns
        = if handler = HandlerOutcome.returns true ∧ command.cooldown ≠ 0
          then aset st.cooldowns (command.name ++ "-" ++ user)
            (now + command.cooldown * 1000)
          else st.cooldowns := by
    simp only [execute, hcmd, hperm, Bool.false_eq_true, if_false, hcool]
    cases handler with
    | throws => simp
    | returns ok =>
      by_cases hok : ok = true ∧ command.cooldown ≠ 0
      · obtain ⟨hok1, hok2⟩ := hok
        subst hok1
        simp [applyCooldown, hok2]
      · simp [hok]
  refine ⟨hmain, ?_⟩
  intro hfail
  have hcd : (execute commands aliases st name user isAdmin handler
      now).2.cooldowns = st.cooldowns := by
    rw [hmain, if_neg]
    rintro ⟨h1, -⟩
    rcases hfail with h | h <;> rw [h] at h1 <;> simp at h1
  set st' := (execute commands aliases st name user isAdmin handler now).2
    with hst'
  simp only [execute, hcmd, hperm, Bool.false_eq_true, if_false, hcd, hcool]
  cases h2 with
  | throws => simp
  | returns ok =>
    by_cases hok : ok = true ∧ ¬ command.cooldown = 0
    · simp [hok]
    · simp [hok]

/-- The concrete command used by the dispatcher witnesses: a public
5-second-cooldown `ping`. -/
def pingCmd : Command := { name := "ping", adminOnly := false, cooldown := 5 }

/-- The empty dispatcher state used by the dispatcher witnesses. -/
def emptyDispatch : DispatchState :=
  { cooldowns := [], commandStats := [], users := [] }

/-- Witness for C2 at a concrete input: `bob` runs `ping` (cooldown 5s)
with a handler that returns `{success: false}`; the cooldown map stays
empty and a retry is not on cooldown. -/
theorem cooldown_commit_iff_success_witness :
    (getCommand [("ping", pingCmd)] [] "ping" = some pingCmd ∧
      (pingCmd.adminOnly && !false) = false ∧
      checkCooldown emptyDispatch.cooldowns pingCmd "bob" 0
        = CooldownCheck.allowed) ∧
    (((execute [("ping", pingCmd)] [] emptyDispatch "ping" "bob" false
          (HandlerOutcome.returns false) 0).2.cooldowns
      = if HandlerOutcome.returns false = HandlerOutcome.returns true
            ∧ pingCmd.cooldown ≠ 0
        then aset emptyDispatch.cooldowns (pingCmd.name ++ "-" ++ "bob")
          (0 + pingCmd.cooldown * 1000)
        else emptyDispatch.cooldowns) ∧
    (HandlerOutcome.returns false = HandlerOutcome.returns false ∨
        HandlerOutcome.returns false = HandlerOutcome.throws →
      (execute [("ping", pingCmd)] []
          (execute [("ping", pingCmd)] [] emptyDispatch "ping" "bob" false
            (HandlerOutcome.returns false) 0).2
          "ping" "bob" false (HandlerOutcome.returns true) 0).1
        ≠ ExecResult.onCooldown 0)) :=
  ⟨⟨by decide, by decide, by decide⟩,
    cooldown_commit_iff_success [("ping", pingCmd)] [] emptyDispatch
      "ping" "bob" false (HandlerOutcome.returns false)
      (HandlerOutcome.returns true) 0 0 pingCmd (by decide) (by decide)
      (by decide)⟩

/-- C10: both usage counters are bumped exactly when the dispatch passes
name resolution, the permission check and the cooldown check — before
the handler runs — so a failing or throwing handler still counts one
usage, while a dispatch rejected as unknown, permission-denied or
on-cooldown leaves the whole dispatcher state (hence both counters)
untouched. -/
theorem usage_counters_bumped_after_gates
    (commands : List (String × Command))
    (aliases : List (String × String)) (st : DispatchState)
    (name user : String) (isAdmin : Bool) (handler : HandlerOutcome)
    (now s : Nat) (command : Command) :
    (getCommand commands aliases name = none →
      (execute commands aliases st name user isAdmin handler now).2 = st) ∧
    (getCommand commands aliases name = some command →
      ((command.adminOnly && !isAdmin) = true →
        (execute commands aliases st name user isAdmin handler now).2 = st) ∧
      ((command.adminOnly && !isAdmin) = false →
        checkCooldown st.cooldowns command user now
          = CooldownCheck.onCooldown s →
        (execute commands aliases st name user isAdmin handler now).2 = st) ∧
      ((command.adminOnly && !isAdmin) = false →
        checkCooldown st.cooldowns command user now = CooldownCheck.allowed →
        statCount (execute commands aliases st name user isAdmin handler
            now).2.commandStats name
          = statCount st.commandStats name + 1 ∧
        usageCount (execute commands aliases st name user isAdmin handler
            now).2.users user
          = usageCount st.users user + 1)) := by
  constructor
  · intro hnone
    simp only [execute, hnone]
  · intro hcmd
    refine ⟨?_, ?_, ?_⟩
    · intro hdenied
      simp only [execute, hcmd, hdenied, if_true]
    · intro hperm hcool
      simp only [execute, hcmd, hperm, Bool.false_eq_true, if_false, hcool]
    · intro hperm hcool
      have hstate :
          (execute commands aliases st name user isAdmin handler
              now).2.commandStats = trackCommandUsage st.commandStats name ∧
          (execute commands aliases st name user isAdmin handler
              now).2.users = incrementCommandUsage st.users user now := by
        simp only [execute, hcmd, hperm, Bool.false_eq_true, if_false, hcool]
        cases handler with
        | throws => exact ⟨rfl, rfl⟩
        | returns ok =>
          by_cases hok : ok = true ∧ command.cooldown ≠ 0
          · simp [hok]
          · simp [hok]
      rw [hstate.1, hstate.2]
      exact ⟨statCount_trackCommandUsage st.commandStats name,
        usageCount_incrementCommandUsage st.users user now⟩

/-- Witness for C10 at a concrete input: `bob` runs `ping` with a
throwing handler; the per-command and per-user counters still go from 0
to 1. -/
theorem usage_counters_bumped_after_gates_witness :
    (getCommand [("ping", pingCmd)] [] "ping" = none →
      (execute [("ping", pingCmd)] [] emptyDispatch "ping" "bob" false
        HandlerOutcome.throws 0).2 = emptyDispatch) ∧
    (getCommand [("ping", pingCmd)] [] "ping" = some pingCmd →
      ((pingCmd.adminOnly && !false) = true →
        (execute [("ping", pingCmd)] [] emptyDispatch "ping" "bob" false
          HandlerOutcome.throws 0).2 = emptyDispatch) ∧
      ((pingCmd.adminOnly && !false) = false →
        checkCooldown emptyDispatch.cooldowns pingCmd "bob" 0
          = CooldownCheck.onCooldown 3 →
        (execute [("ping", pingCmd)] [] emptyDispatch "ping" "bob" false
          HandlerOutcome.throws 0).2 = emptyDispatch) ∧
      ((pingCmd.adminOnly && !false) = false →
        checkCooldown emptyDispatch.cooldowns pingCmd "bob" 0
          = CooldownCheck.allowed →
        statCount (execute [("ping", pingCmd)] [] emptyDispatch "ping" "bob"
            false HandlerOutcome.throws 0).2.commandStats "ping"
          = statCount emptyDispatch.commandStats "ping" + 1 ∧
        usageCount (execute [("ping", pingCmd)] [] emptyDispatch "ping" "bob"
            false HandlerOutcome.throws 0).2.users "bob"
          = usageCount emptyDispatch.users "bob" + 1)) :=
  usage_counters_bumped_after_gates [("ping", pingCmd)] [] emptyDispatch
    "ping" "bob" false HandlerOutcome.throws 0 3 pingCmd

end InstagramBot
